import Mathlib

/-!
Verification development for the FluentAI realtime tutoring application.

Each definition below is a shallow embedding of a function or event handler of
the TypeScript source; the file reference is given in the doc comment.
Time and sample values are modelled as exact rationals, machine integers as
`Int`/`Nat`, JavaScript `Set`s as duplicate-free lists, and fallible external
effects (decoding, the evaluation collaborator) as explicit parameters.
-/

set_option maxRecDepth 4000

namespace FluentAI

/-! ## Realtime Session Bridge: playback queue (src/hooks/useLiveAvatar.ts)

The `onmessage` callback owns a scheduling cursor `nextStartTimeRef`, a live
source set `sourcesRef`, and the `isTalking` flag.  We record in addition the
`(start, duration)` window of every buffer that was successfully scheduled and
the identifiers of sources that were force-stopped, so that the scheduling and
interruption claims can be stated. -/

structure PlaybackState where
  /-- `nextStartTimeRef.current`: the scheduling cursor, in output-context time. -/
  nextStartTime : ℚ
  /-- `sourcesRef.current`: identifiers of the live buffer sources. -/
  live : List Nat
  /-- history of `(start, duration)` windows passed to `source.start`. -/
  windows : List (ℚ × ℚ)
  /-- identifiers on which `stop()` was invoked by the interruption handler. -/
  stopped : List Nat
  /-- the `isTalking` state flag. -/
  isTalking : Bool
  deriving DecidableEq, Repr

/-- The playback-side state right after `connect()` set up the output context. -/
def initPlayback : PlaybackState :=
  { nextStartTime := 0, live := [], windows := [], stopped := [], isTalking := false }

/-- Inbound events consumed by the bridge callbacks (useLiveAvatar.ts 176-227
plus the per-source `ended` listener at lines 205-210).  A `chunk` event is an
inbound base64 chunk observed at output-context time `now`, decoding
to a buffer of duration `dur`; `decodeOk` records whether `decodeAudioData`
succeeded (line 215 catches the failure). -/
inductive BridgeEvent where
  | chunk (now dur : ℚ) (decodeOk : Bool) (id : Nat)
  | ended (id : Nat)
  | interrupted
  deriving DecidableEq, Repr

/-- useLiveAvatar.ts lines 186-218: on inbound model speech, set
`isTalking`, clamp the cursor to `max nextStartTime now`, and on decode success
schedule the buffer at the cursor and advance the cursor by its duration. -/
def handleChunk (s : PlaybackState) (now dur : ℚ) (decodeOk : Bool) (id : Nat) :
    PlaybackState :=
  let cursor := max s.nextStartTime now
  if decodeOk then
    { s with
      isTalking := true
      nextStartTime := cursor + dur
      windows := s.windows ++ [(cursor, dur)]
      live := s.live.insert id }
  else
    { s with isTalking := true, nextStartTime := cursor }

/-- useLiveAvatar.ts lines 205-210: natural completion of a source removes it
from the live set, and `isTalking` falls once the set empties. -/
def handleEnded (s : PlaybackState) (id : Nat) : PlaybackState :=
  let remaining := s.live.erase id
  { s with
    live := remaining
    isTalking := if remaining.isEmpty then false else s.isTalking }

/-- useLiveAvatar.ts lines 220-226: the barge-in handler stops every live
source, clears the set, zeroes the cursor and clears `isTalking`. -/
def handleInterrupted (s : PlaybackState) : PlaybackState :=
  { s with
    stopped := s.stopped ++ s.live
    live := []
    nextStartTime := 0
    isTalking := false }

/-- Dispatch of one inbound event. -/
def stepBridge (s : PlaybackState) : BridgeEvent → PlaybackState
  | .chunk now dur decodeOk id => handleChunk s now dur decodeOk id
  | .ended id => handleEnded s id
  | .interrupted => handleInterrupted s

/-- Processing a whole inbound event sequence. -/
def runBridge (s : PlaybackState) (evs : List BridgeEvent) : PlaybackState :=
  evs.foldl stepBridge s

/-- A concrete state with three queued buffers, for the interruption scenario. -/
def threeQueued : PlaybackState :=
  { nextStartTime := 6, live := [1, 2, 3],
    windows := [(0, 1), (1, 2), (3, 3)], stopped := [], isTalking := true }

/-- An event is clean when it is not a chunk that fails to decode. -/
def cleanEvent : BridgeEvent → Bool
  | .chunk _ _ decodeOk _ => decodeOk
  | _ => true

/-! ## Realtime Session Bridge: disconnect (src/hooks/useLiveAvatar.ts 34-69)

`disconnect` owns four kinds of resources: the session handle
(`sessionPromiseRef`), the live playback sources, the two audio contexts and
the microphone stream.  The hook itself holds no timers, so no timer field
appears.  Each `...Closes`/`...Stops` counter records how many times the
corresponding release effect has been performed; `session.close()` and
`source.stop()` are wrapped in try/catch in the source, so the handler is a
total function. -/

structure HookState where
  session : Bool
  live : List Nat
  inputCtx : Bool
  outputCtx : Bool
  stream : Bool
  isConnected : Bool
  isTalking : Bool
  sessionCloses : Nat
  sourceStops : Nat
  inputCtxCloses : Nat
  outputCtxCloses : Nat
  streamStops : Nat
  deriving DecidableEq, Repr

/-- useLiveAvatar.ts lines 34-69, in source order: close and null the session
handle, stop and clear all playing sources, close and null both audio
contexts, stop and null the microphone stream, clear both status flags. -/
def disconnect (s : HookState) : HookState :=
  let s1 := if s.session then
    { s with session := false, sessionCloses := s.sessionCloses + 1 } else s
  let s2 := { s1 with sourceStops := s1.sourceStops + s1.live.length, live := [] }
  let s3 := if s2.inputCtx then
    { s2 with inputCtx := false, inputCtxCloses := s2.inputCtxCloses + 1 } else s2
  let s4 := if s3.outputCtx then
    { s3 with outputCtx := false, outputCtxCloses := s3.outputCtxCloses + 1 } else s3
  let s5 := if s4.stream then
    { s4 with stream := false, streamStops := s4.streamStops + 1 } else s4
  { s5 with isConnected := false, isTalking := false }

/-- A state is released when it holds no resource and no status flag. -/
def released (s : HookState) : Prop :=
  s.session = false ∧ s.live = [] ∧ s.inputCtx = false ∧ s.outputCtx = false ∧
    s.stream = false ∧ s.isConnected = false ∧ s.isTalking = false

instance (s : HookState) : Decidable (released s) := by
  unfold released; infer_instance

/-- An Idle hook state whose single session, contexts, stream and two sources
have already been released. -/
def idleHook : HookState :=
  { session := false, live := [], inputCtx := false, outputCtx := false,
    stream := false, isConnected := false, isTalking := false,
    sessionCloses := 1, sourceStops := 2, inputCtxCloses := 1,
    outputCtxCloses := 1, streamStops := 1 }

/-- An Open hook state holding every resource and two live sources. -/
def openHook : HookState :=
  { session := true, live := [7, 8], inputCtx := true, outputCtx := true,
    stream := true, isConnected := true, isTalking := true,
    sessionCloses := 0, sourceStops := 0, inputCtxCloses := 0,
    outputCtxCloses := 0, streamStops := 0 }

/-! ## Turn Assembler (src/components/Login.tsx)

`onTranscriptUpdate` (lines 405-420) maintains `messages`, the sealed chat
messages, `fullTranscriptRef`, the flat transcript accumulated line by line,
and the open turn (`currentTurnRole`, `currentTurnText`).  `handleFinish`
(lines 557-560) appends the open turn to the transcript when both the role is
set and the text is non-empty (the JavaScript truthiness test
`currentTurnRole && currentTurnText`). -/

inductive Role where
  | user
  | model
  deriving DecidableEq, Repr

structure ChatMessage where
  role : Role
  text : String
  timestamp : Nat
  deriving DecidableEq, Repr

structure TurnState where
  messages : List ChatMessage
  fullTranscript : List (Role × String)
  currentTurnText : String
  currentTurnRole : Option Role
  deriving DecidableEq, Repr

def initTurn : TurnState :=
  { messages := [], fullTranscript := [], currentTurnText := "",
    currentTurnRole := none }

def roleOf (isUser : Bool) : Role := if isUser then .user else .model

/-- Login.tsx lines 405-420: a delta of a different role seals the open turn
into `messages` and the flat transcript and starts a new turn holding exactly
the delta's text; otherwise (matching role, or no open turn) the text is
appended to the open turn.  `now` stands for `Date.now()`. -/
def onTranscriptUpdate (s : TurnState) (text : String) (isUser : Bool)
    (now : Nat) : TurnState :=
  let role := roleOf isUser
  match s.currentTurnRole with
  | some r =>
    if r ≠ role then
      { messages := s.messages ++ [⟨r, s.currentTurnText, now⟩]
        fullTranscript := s.fullTranscript ++ [(r, s.currentTurnText)]
        currentTurnText := text
        currentTurnRole := some role }
    else
      { s with currentTurnText := s.currentTurnText ++ text,
               currentTurnRole := some role }
  | none =>
    { s with currentTurnText := s.currentTurnText ++ text,
             currentTurnRole := some role }

/-- Login.tsx lines 557-560: the final transcript, sealing the open turn only
when a role is set and the accumulated text is non-empty. -/
def finishTranscript (s : TurnState) : List (Role × String) :=
  match s.currentTurnRole with
  | some r =>
    if s.currentTurnText ≠ "" then s.fullTranscript ++ [(r, s.currentTurnText)]
    else s.fullTranscript
  | none => s.fullTranscript

/-- Feeding a list of `(text, isUser, now)` deltas in order. -/
def runTurns (s : TurnState) (deltas : List (String × Bool × Nat)) : TurnState :=
  deltas.foldl (fun t d => onTranscriptUpdate t d.1 d.2.1 d.2.2) s

/-! ## Resampler (src/hooks/useLiveAvatar.ts 149-162)

The `onaudioprocess` handler resamples each captured block from the input
context's native rate to the fixed 16000 Hz target by nearest-neighbour
decimation.  Samples are modelled as exact rationals. -/

def targetRate : Nat := 16000

/-- useLiveAvatar.ts lines 153-162: pass through when the rates match,
otherwise take `floor(L / r)` samples with `output[i] = input[floor(i * r)]`
where `r = sourceRate / targetRate`. -/
def resampleCapture (sourceRate : Nat) (input : List ℚ) : List ℚ :=
  if sourceRate = targetRate then input
  else
    let r : ℚ := (sourceRate : ℚ) / (targetRate : ℚ)
    let newLength : Nat := (⌊(input.length : ℚ) / r⌋).toNat
    (List.range newLength).map fun (i : Nat) =>
      input.getD (⌊(i : ℚ) * r⌋).toNat 0

/-! ## Session Credit Timer (src/components/Login.tsx 426-444, 546-550)

The one-second interval decrements `remainingCredits`; on reaching 0 it
clears itself, writes 0 to persistent storage (`onUpdateCredits(0)`),
invokes `handleFinish(0)` — which is guarded by `isFinishing` so the forced
finish runs at most once — and shows the out-of-credits modal.
`timerActive` stands for the effect guard
`hasStarted && isConnected && !isFinishing && !showCreditModal`. -/

structure CreditState where
  remainingCredits : Int
  timerActive : Bool
  isFinishing : Bool
  showCreditModal : Bool
  /-- how many times the guarded body of `handleFinish` has run. -/
  finishCount : Nat
  /-- values pushed to persistent storage via `onUpdateCredits`. -/
  dbWrites : List Int
  deriving DecidableEq, Repr

/-- Login.tsx lines 429-441: one tick of the credit interval. -/
def creditTick (s : CreditState) : CreditState :=
  if s.timerActive then
    let newVal := s.remainingCredits - 1
    if newVal ≤ 0 then
      { remainingCredits := 0
        timerActive := false
        isFinishing := true
        showCreditModal := true
        finishCount := if s.isFinishing then s.finishCount else s.finishCount + 1
        dbWrites := s.dbWrites ++ [0] }
    else
      { s with remainingCredits := newVal }
  else s

/-- A session that has just started with 65 seconds of credits. -/
def credits65 : CreditState :=
  { remainingCredits := 65, timerActive := true, isFinishing := false,
    showCreditModal := false, finishCount := 0, dbWrites := [] }

/-! ## Periodic credit reconciliation (src/components/Login.tsx 447-458)

The reconciliation effect starts a 10-second interval that pushes
`remainingCredits` to storage when `|lastSyncCreditsRef - remainingCredits|`
is at least 5.  Its dependency list contains `remainingCredits`, so every
credit change tears the interval down and starts a fresh one: the 10-second
period restarts from zero on each change.  `syncSecond` advances this system
by one second: while the credit timer is running (and credits stay positive,
the exhaustion step being `creditTick`'s), the tick decrements the credits and
thereby restarts the reconciliation countdown; otherwise the countdown
advances and, on elapsing, the drift test runs. -/

structure SyncState where
  remainingCredits : Int
  /-- `lastSyncCreditsRef.current`: the last persisted value. -/
  lastSyncCredits : Int
  /-- seconds left before the current 10-second sync interval fires. -/
  syncCountdown : Nat
  /-- the credit-timer guard `hasStarted && isConnected && !isFinishing &&
  !showCreditModal`. -/
  countdownActive : Bool
  /-- values pushed to persistent storage via `onUpdateCredits`. -/
  dbWrites : List Int
  deriving DecidableEq, Repr

/-- One second of the coupled credit-decrement / reconciliation system. -/
def syncSecond (s : SyncState) : SyncState :=
  if s.countdownActive = true ∧ 1 < s.remainingCredits then
    { s with remainingCredits := s.remainingCredits - 1, syncCountdown := 10 }
  else if s.syncCountdown ≤ 1 then
    if 5 ≤ |s.lastSyncCredits - s.remainingCredits| then
      { s with dbWrites := s.dbWrites ++ [s.remainingCredits]
               lastSyncCredits := s.remainingCredits
               syncCountdown := 10 }
    else { s with syncCountdown := 10 }
  else { s with syncCountdown := s.syncCountdown - 1 }

/-- A freshly started and fully synced session with 65 seconds of credits. -/
def syncStart : SyncState :=
  { remainingCredits := 65, lastSyncCredits := 65, syncCountdown := 10,
    countdownActive := true, dbWrites := [] }

/-- A paused session with an accumulated drift of 6 whose sync interval is
about to fire. -/
def driftedIdle : SyncState :=
  { remainingCredits := 59, lastSyncCredits := 65, syncCountdown := 1,
    countdownActive := false, dbWrites := [] }

/-! ## Session evaluation (src/services/gemini.ts 7-87)

`evaluateSession` takes the final transcript (modelled as a character list)
and, unless the trimmed transcript is shorter than 10 characters, consults
the evaluation collaborator, whose outcome — a JSON object with possibly
missing fields, or a thrown error — is an explicit parameter.  The returned
Boolean records whether the collaborator was invoked. -/

structure EvalReport where
  overallScore : Int
  vocabularyScore : Int
  grammarScore : Int
  pronunciationScore : Int
  fluencyRating : String
  feedback : String
  transcript : List Char
  deriving DecidableEq, Repr

/-- Outcome of the collaborator call: a parsed response whose fields may be
absent, or a thrown error (network failure, malformed JSON). -/
inductive CollabOutcome where
  | ok (overall vocab grammar pron : Option Int) (fluency feedback : Option String)
  | err
  deriving DecidableEq, Repr

/-- JavaScript `String.prototype.trim`: strip whitespace from both ends. -/
def trimChars (l : List Char) : List Char :=
  ((l.dropWhile Char.isWhitespace).reverse.dropWhile Char.isWhitespace).reverse

/-- JavaScript `x || 0` on an optional integer field. -/
def jsOrZero (o : Option Int) : Int := o.getD 0

/-- JavaScript `x || dflt` on an optional string field (the empty string is
falsy). -/
def jsOrString (o : Option String) (dflt : String) : String :=
  match o with
  | none => dflt
  | some s => if s = "" then dflt else s

/-- gemini.ts line 64: `Math.round(vocab * 0.3 + grammar * 0.3 +
pronunciation * 0.4)`; `Math.round` rounds halves toward positive infinity,
as does `round`. -/
def weightedOverall (vocab grammar pron : Int) : Int :=
  round ((vocab : ℚ) * (3 / 10) + (grammar : ℚ) * (3 / 10)
    + (pron : ℚ) * (4 / 10))

/-- gemini.ts lines 8-18: the fixed low-score fallback for short sessions. -/
def shortFallback (t : List Char) : EvalReport :=
  { overallScore := 10, vocabularyScore := 10, grammarScore := 10,
    pronunciationScore := 10, fluencyRating := "Beginner",
    feedback := "A sessão foi muito curta para avaliar corretamente. Continue praticando!",
    transcript := t }

/-- gemini.ts lines 77-85: the neutral fallback when the collaborator throws. -/
def errFallback (t : List Char) : EvalReport :=
  { overallScore := 50, vocabularyScore := 50, grammarScore := 50,
    pronunciationScore := 50, fluencyRating := "Beginner",
    feedback := "Não foi possível gerar um relatório detalhado devido a um problema de conexão, mas bom trabalho na prática!",
    transcript := t }

/-- gemini.ts lines 7-87.  The guard is the JavaScript test
`!transcript || transcript.trim().length < 10`; the second component records
whether the collaborator was invoked. -/
def evaluateSession (transcript : List Char) (outcome : CollabOutcome) :
    EvalReport × Bool :=
  if transcript = [] ∨ (trimChars transcript).length < 10 then
    (shortFallback transcript, false)
  else
    match outcome with
    | .err => (errFallback transcript, true)
    | .ok overall vocab grammar pron fluency feedback =>
      let v := jsOrZero vocab
      let g := jsOrZero grammar
      let p := jsOrZero pron
      let calculatedOverall :=
        if jsOrZero overall = 0 then weightedOverall v g p else jsOrZero overall
      ({ overallScore := calculatedOverall, vocabularyScore := v,
         grammarScore := g, pronunciationScore := p,
         fluencyRating := jsOrString fluency "Beginner",
         feedback := jsOrString feedback "Bom esforço!",
         transcript := transcript }, true)

/-- A 12-character whitespace-free transcript, long enough to reach the
collaborator. -/
def longTranscript : List Char := "abcdefghijkl".toList

/-! ## Theorems -/

/-- C2: the interruption handler, from any state (in particular with three
queued buffers), stops every live source, empties the live set, resets the
cursor to 0 and clears `isTalking`. -/
theorem interruption_C2 :
    (∀ s : PlaybackState,
      (handleInterrupted s).live = [] ∧
      (handleInterrupted s).nextStartTime = 0 ∧
      (handleInterrupted s).isTalking = false ∧
      (handleInterrupted s).stopped = s.stopped ++ s.live) ∧
    (stepBridge threeQueued .interrupted).live = [] ∧
    (stepBridge threeQueued .interrupted).nextStartTime = 0 ∧
    (stepBridge threeQueued .interrupted).isTalking = false ∧
    (stepBridge threeQueued .interrupted).stopped = [1, 2, 3] := by
  refine ⟨fun s => ⟨rfl, rfl, rfl, rfl⟩, ?_, ?_, ?_, ?_⟩ <;> rfl

/-- C1: each successfully decoded buffer is scheduled at
`max nextStartTime now` and the cursor advances by exactly its duration; and
for three buffers of nonnegative durations `d1 d2 d3`, each arriving no later
than the end of the previously scheduled audio (the fresh cursor `0` standing
for the first buffer), the cursor ends at `d1 + d2 + d3` and the three play
windows abut without overlap. -/
theorem playback_scheduling_C1 :
    (∀ (s : PlaybackState) (now dur : ℚ) (id : Nat),
      (handleChunk s now dur true id).windows
          = s.windows ++ [(max s.nextStartTime now, dur)] ∧
      (handleChunk s now dur true id).nextStartTime
          = max s.nextStartTime now + dur) ∧
    (∀ t1 t2 t3 d1 d2 d3 : ℚ, 0 ≤ d1 → 0 ≤ d2 → 0 ≤ d3 →
      t1 ≤ 0 → t2 ≤ d1 → t3 ≤ d1 + d2 →
      (runBridge initPlayback
          [.chunk t1 d1 true 1, .chunk t2 d2 true 2, .chunk t3 d3 true 3]).nextStartTime
        = d1 + d2 + d3 ∧
      (runBridge initPlayback
          [.chunk t1 d1 true 1, .chunk t2 d2 true 2, .chunk t3 d3 true 3]).windows
        = [(0, d1), (d1, d2), (d1 + d2, d3)] ∧
      (runBridge initPlayback
          [.chunk t1 d1 true 1, .chunk t2 d2 true 2, .chunk t3 d3 true 3]).windows.Pairwise
          (fun w v => w.1 + w.2 ≤ v.1)) := by
  constructor
  · intro s now dur id
    exact ⟨rfl, rfl⟩
  · intro t1 t2 t3 d1 d2 d3 hd1 hd2 hd3 ht1 ht2 ht3
    have h1 : max (0 : ℚ) t1 = 0 := max_eq_left ht1
    have h2 : max (0 + d1) t2 = 0 + d1 := max_eq_left (by linarith)
    have h3 : max (0 + d1 + d2) t3 = 0 + d1 + d2 := max_eq_left (by linarith)
    have hc : (runBridge initPlayback
        [.chunk t1 d1 true 1, .chunk t2 d2 true 2, .chunk t3 d3 true 3]).nextStartTime
        = d1 + d2 + d3 := by
      simp only [runBridge, List.foldl, stepBridge, handleChunk, initPlayback, if_true,
        List.nil_append, h1, h2, h3]
      ring
    have hw : (runBridge initPlayback
        [.chunk t1 d1 true 1, .chunk t2 d2 true 2, .chunk t3 d3 true 3]).windows
        = [(0, d1), (d1, d2), (d1 + d2, d3)] := by
      simp only [runBridge, List.foldl, stepBridge, handleChunk, initPlayback, if_true,
        List.nil_append, h1, h2, h3]
      norm_num
    refine ⟨hc, hw, ?_⟩
    rw [hw]
    refine List.Pairwise.cons ?_ (List.Pairwise.cons ?_ (List.pairwise_singleton _ _))
    · intro v hv
      simp only [List.mem_cons, List.mem_singleton, List.not_mem_nil, or_false] at hv
      rcases hv with rfl | rfl
      · show (0 : ℚ) + d1 ≤ d1
        linarith
      · show (0 : ℚ) + d1 ≤ d1 + d2
        linarith
    · intro v hv
      simp only [List.mem_singleton] at hv
      subst hv
      show d1 + d2 ≤ d1 + d2
      linarith

/-- Concrete instance of `playback_scheduling_C1`: a fresh chunk at a state
with cursor 5, and three buffers of durations 1, 2, 3 all arriving at time 0. -/
theorem playback_scheduling_C1_witness :
    ((handleChunk { initPlayback with nextStartTime := 5 } 7 2 true 4).windows
        = [(7, 2)] ∧
     (handleChunk { initPlayback with nextStartTime := 5 } 7 2 true 4).nextStartTime
        = 9) ∧
    ((runBridge initPlayback
        [.chunk 0 1 true 1, .chunk 0 2 true 2, .chunk 0 3 true 3]).nextStartTime
        = 1 + 2 + 3 ∧
     (runBridge initPlayback
        [.chunk 0 1 true 1, .chunk 0 2 true 2, .chunk 0 3 true 3]).windows
        = [(0, 1), (1, 2), (1 + 2, 3)] ∧
     (runBridge initPlayback
        [.chunk 0 1 true 1, .chunk 0 2 true 2, .chunk 0 3 true 3]).windows.Pairwise
        (fun w v => w.1 + w.2 ≤ v.1)) := by
  constructor
  · have h := playback_scheduling_C1.1 { initPlayback with nextStartTime := 5 } 7 2 4
    refine ⟨?_, ?_⟩
    · rw [h.1]; norm_num [initPlayback]
    · rw [h.2]; norm_num [initPlayback]
  · have h := playback_scheduling_C1.2 0 0 0 1 2 3
      (by norm_num) (by norm_num) (by norm_num) le_rfl (by norm_num) (by norm_num)
    exact h

/-- The talking flag tracks non-emptiness of the live set across one clean step. -/
theorem stepBridge_talking_inv (s : PlaybackState) (ev : BridgeEvent)
    (hclean : cleanEvent ev = true)
    (h : s.isTalking = true ↔ s.live ≠ []) :
    (stepBridge s ev).isTalking = true ↔ (stepBridge s ev).live ≠ [] := by
  cases ev with
  | chunk now dur decodeOk id =>
    cases decodeOk with
    | false => simp [cleanEvent] at hclean
    | true =>
      simp only [stepBridge, handleChunk, if_true]
      constructor
      · intro _
        simp only [List.insert]
        split
        · rename_i hmem
          exact List.ne_nil_of_mem (List.mem_of_elem_eq_true hmem)
        · exact List.cons_ne_nil _ _
      · intro _; trivial
  | ended id =>
    simp only [stepBridge, handleEnded]
    by_cases hemp : (s.live.erase id).isEmpty
    · simp [hemp, List.isEmpty_iff.mp hemp]
    · have hne : s.live.erase id ≠ [] := by
        intro hcontra
        rw [hcontra] at hemp
        simp at hemp
      have hlive : s.live ≠ [] := by
        intro hcontra
        apply hne
        rw [hcontra, List.erase_nil]
      simp [hemp, hne, h.mpr hlive]
  | interrupted =>
    simp [stepBridge, handleInterrupted]

/-- C6 counterexample: a single inbound chunk whose decode fails (the catch
at useLiveAvatar.ts line 215) leaves `isTalking = true` while the live buffer
set is empty, because `setIsTalking(true)` runs before the decode attempt. -/
theorem talking_C6_counterexample :
    ¬ (((runBridge initPlayback [.chunk 0 1 false 1]).isTalking = true) ↔
        (runBridge initPlayback [.chunk 0 1 false 1]).live ≠ []) := by
  decide

/-- The talking flag tracks the live set across any clean event sequence. -/
theorem runBridge_talking_inv (evs : List BridgeEvent) :
    ∀ s : PlaybackState, (∀ ev ∈ evs, cleanEvent ev = true) →
      (s.isTalking = true ↔ s.live ≠ []) →
      ((runBridge s evs).isTalking = true ↔ (runBridge s evs).live ≠ []) := by
  induction evs with
  | nil => intro s _ h; exact h
  | cons ev rest ih =>
    intro s hclean h
    have hev : cleanEvent ev = true := hclean ev (List.mem_cons_self ev rest)
    have hrest : ∀ e ∈ rest, cleanEvent e = true :=
      fun e he => hclean e (List.mem_cons_of_mem ev he)
    exact ih (stepBridge s ev) hrest (stepBridge_talking_inv s ev hev h)

/-- C6 amended: provided every chunk in the inbound sequence decodes
successfully, after processing the sequence `isTalking` holds exactly when the
live buffer set is non-empty. -/
theorem talking_C6_amended (evs : List BridgeEvent)
    (hclean : ∀ ev ∈ evs, cleanEvent ev = true) :
    ((runBridge initPlayback evs).isTalking = true) ↔
      (runBridge initPlayback evs).live ≠ [] :=
  runBridge_talking_inv evs initPlayback hclean (by simp [initPlayback])

/-- Concrete instance of `talking_C6_amended`: one decoded chunk followed by
its natural completion. -/
theorem talking_C6_amended_witness :
    ((runBridge initPlayback [.chunk 0 1 true 1, .ended 1]).isTalking = true) ↔
      (runBridge initPlayback [.chunk 0 1 true 1, .ended 1]).live ≠ [] :=
  talking_C6_amended [.chunk 0 1 true 1, .ended 1] (by decide)

/-- Every post-disconnect state is released. -/
theorem disconnect_released (s : HookState) : released (disconnect s) := by
  rcases s with ⟨sess, live, inC, outC, str, conn, talk, c1, c2, c3, c4, c5⟩
  simp only [disconnect, released]
  cases sess <;> cases inC <;> cases outC <;> cases str <;> simp

/-- Disconnecting a released state changes nothing. -/
theorem disconnect_of_released (s : HookState) (h : released s) : disconnect s = s := by
  rcases s with ⟨sess, live, inC, outC, str, conn, talk, c1, c2, c3, c4, c5⟩
  obtain ⟨h1, h2, h3, h4, h5, h6, h7⟩ := h
  simp only at h1 h2 h3 h4 h5 h6 h7
  subst h1 h2 h3 h4 h5 h6 h7
  simp [disconnect]

/-- C7: `disconnect` is idempotent and releases each owned resource exactly
once.  From any state a second invocation is the identity on the result of the
first; from an already released (Closed/Idle) state it is a no-op; each
invocation closes the session handle, each audio context and the microphone
stream exactly once when present and never again afterwards, and stops each
live source exactly once; the handler is a total function, so double
invocation cannot throw.  (The hook owns no timers, so no timer resource
exists to release.) -/
theorem disconnect_C7 :
    (∀ s : HookState, disconnect (disconnect s) = disconnect s) ∧
    (∀ s : HookState, released s → disconnect s = s) ∧
    (∀ s : HookState,
      (disconnect s).sessionCloses
          = s.sessionCloses + (if s.session then 1 else 0) ∧
      (disconnect s).inputCtxCloses
          = s.inputCtxCloses + (if s.inputCtx then 1 else 0) ∧
      (disconnect s).outputCtxCloses
          = s.outputCtxCloses + (if s.outputCtx then 1 else 0) ∧
      (disconnect s).streamStops
          = s.streamStops + (if s.stream then 1 else 0) ∧
      (disconnect s).sourceStops = s.sourceStops + s.live.length) := by
  refine ⟨?_, disconnect_of_released, ?_⟩
  · intro s
    exact disconnect_of_released (disconnect s) (disconnect_released s)
  · intro s
    rcases s with ⟨sess, live, inC, outC, str, conn, talk, c1, c2, c3, c4, c5⟩
    cases sess <;> cases inC <;> cases outC <;> cases str <;> simp [disconnect]

/-- Concrete instance of `disconnect_C7`: a released state is a fixed point,
and disconnecting a fully Open state closes the session once. -/
theorem disconnect_C7_witness :
    disconnect idleHook = idleHook ∧
    (disconnect openHook).sessionCloses
      = openHook.sessionCloses + (if openHook.session then 1 else 0) :=
  ⟨disconnect_C7.2.1 idleHook (by decide), (disconnect_C7.2.2 openHook).1⟩

/-- C3 counterexample: a delta with empty text opens a turn
(`currentTurnRole = some user`), yet at session end `handleFinish` does not
seal it — the truthiness test `currentTurnRole && currentTurnText` rejects the
empty string — so a still-open turn is dropped rather than force-sealed. -/
theorem turn_C3_counterexample :
    (onTranscriptUpdate initTurn "" true 0).currentTurnRole = some Role.user ∧
    finishTranscript (onTranscriptUpdate initTurn "" true 0)
      = [] := by
  decide

/-- C3 amended: a delta of a differing role seals the open turn and starts a
new turn with exactly the delta's text; a matching delta appends; at session
end a still-open turn is force-sealed provided its text is non-empty (an open
turn with empty text is dropped); and the sequence
`[(user, Hi), (user, _there), (model, Hello)]` yields the sealed message
`(user, Hi there)`, an open model turn `Hello`, and exactly two transcript
lines after the forced seal. -/
theorem turn_C3_amended :
    (∀ (s : TurnState) (text : String) (isUser : Bool) (now : Nat) (r : Role),
      s.currentTurnRole = some r → r ≠ roleOf isUser →
      (onTranscriptUpdate s text isUser now).messages
          = s.messages ++ [⟨r, s.currentTurnText, now⟩] ∧
      (onTranscriptUpdate s text isUser now).fullTranscript
          = s.fullTranscript ++ [(r, s.currentTurnText)] ∧
      (onTranscriptUpdate s text isUser now).currentTurnText = text ∧
      (onTranscriptUpdate s text isUser now).currentTurnRole
          = some (roleOf isUser)) ∧
    (∀ (s : TurnState) (text : String) (isUser : Bool) (now : Nat),
      s.currentTurnRole = some (roleOf isUser) →
      (onTranscriptUpdate s text isUser now).messages = s.messages ∧
      (onTranscriptUpdate s text isUser now).currentTurnText
          = s.currentTurnText ++ text ∧
      (onTranscriptUpdate s text isUser now).currentTurnRole
          = some (roleOf isUser)) ∧
    (∀ (s : TurnState) (r : Role),
      s.currentTurnRole = some r → s.currentTurnText ≠ "" →
      finishTranscript s = s.fullTranscript ++ [(r, s.currentTurnText)]) ∧
    ((runTurns initTurn [("Hi", true, 1), (" there", true, 2),
        ("Hello", false, 3)]).messages
        = [⟨Role.user, "Hi there", 3⟩] ∧
     (runTurns initTurn [("Hi", true, 1), (" there", true, 2),
        ("Hello", false, 3)]).currentTurnRole = some Role.model ∧
     (runTurns initTurn [("Hi", true, 1), (" there", true, 2),
        ("Hello", false, 3)]).currentTurnText = "Hello" ∧
     finishTranscript (runTurns initTurn [("Hi", true, 1), (" there", true, 2),
        ("Hello", false, 3)])
        = [(Role.user, "Hi there"), (Role.model, "Hello")]) := by
  refine ⟨?_, ?_, ?_, ?_⟩
  · intro s text isUser now r hr hne
    simp [onTranscriptUpdate, hr, hne]
  · intro s text isUser now hr
    simp [onTranscriptUpdate, hr]
  · intro s r hr hne
    simp [finishTranscript, hr, hne]
  · refine ⟨?_, ?_, ?_, ?_⟩ <;> rfl

/-- Concrete instance of `turn_C3_amended`: sealing a one-delta user turn by a
model delta, appending to it, and finishing it. -/
theorem turn_C3_amended_witness :
    ((onTranscriptUpdate (runTurns initTurn [("Hi", true, 1)]) "Yes" false 2).messages
        = (runTurns initTurn [("Hi", true, 1)]).messages
            ++ [⟨Role.user, "Hi", 2⟩] ∧
     (onTranscriptUpdate (runTurns initTurn [("Hi", true, 1)]) "Yes" false 2).fullTranscript
        = (runTurns initTurn [("Hi", true, 1)]).fullTranscript
            ++ [(Role.user, "Hi")] ∧
     (onTranscriptUpdate (runTurns initTurn [("Hi", true, 1)]) "Yes" false 2).currentTurnText
        = "Yes" ∧
     (onTranscriptUpdate (runTurns initTurn [("Hi", true, 1)]) "Yes" false 2).currentTurnRole
        = some (roleOf false)) ∧
    finishTranscript (runTurns initTurn [("Hi", true, 1)])
      = (runTurns initTurn [("Hi", true, 1)]).fullTranscript
          ++ [(Role.user, "Hi")] :=
  ⟨turn_C3_amended.1 _ "Yes" false 2 Role.user (by decide) (by decide),
   turn_C3_amended.2.2.1 _ Role.user (by decide) (by decide)⟩

/-- C4: when the source rate is 16000 Hz the handler passes the block through
unchanged; otherwise, writing `r = sourceRate / 16000 ≥ 1`, the output has
exactly `floor(L / r)` samples and sample `i` is `input[floor(i * r)]`, that
index always lying within the input. -/
theorem resample_C4 :
    (∀ input : List ℚ, resampleCapture targetRate input = input) ∧
    (∀ (sourceRate : Nat) (input : List ℚ),
      sourceRate ≠ targetRate → targetRate ≤ sourceRate →
      (resampleCapture sourceRate input).length
          = (⌊(input.length : ℚ) / ((sourceRate : ℚ) / (targetRate : ℚ))⌋).toNat ∧
      (∀ i : Nat, i < (resampleCapture sourceRate input).length →
        (resampleCapture sourceRate input).getD i 0
            = input.getD (⌊(i : ℚ) * ((sourceRate : ℚ) / (targetRate : ℚ))⌋).toNat 0 ∧
        (⌊(i : ℚ) * ((sourceRate : ℚ) / (targetRate : ℚ))⌋).toNat
            < input.length)) := by
  constructor
  · intro input
    simp [resampleCapture]
  · intro sourceRate input hne hge
    have hr1 : (1 : ℚ) ≤ (sourceRate : ℚ) / (targetRate : ℚ) := by
      rw [le_div_iff₀ (by norm_num [targetRate])]
      rw [one_mul]
      exact_mod_cast hge
    have hr0 : (0 : ℚ) < (sourceRate : ℚ) / (targetRate : ℚ) :=
      lt_of_lt_of_le one_pos hr1
    set r : ℚ := (sourceRate : ℚ) / (targetRate : ℚ) with hrdef
    have hlen : (resampleCapture sourceRate input).length
        = (⌊(input.length : ℚ) / r⌋).toNat := by
      unfold resampleCapture
      rw [if_neg hne]
      rw [List.length_map, List.length_range]
    refine ⟨hlen, ?_⟩
    intro i hi
    rw [hlen] at hi
    -- the scaled index stays within the input
    have hbound : (⌊(i : ℚ) * r⌋).toNat < input.length := by
      have hfloor_pos : (0 : ℤ) ≤ ⌊(input.length : ℚ) / r⌋ := by
        apply Int.floor_nonneg.mpr
        positivity
      have hi' : ((i : ℤ) + 1) ≤ ⌊(input.length : ℚ) / r⌋ := by omega
      have hile : ((i : ℚ) + 1) ≤ (input.length : ℚ) / r := by
        have h := Int.le_floor.mp hi'
        push_cast at h ⊢
        exact h
      have hmul : ((i : ℚ) + 1) * r ≤ (input.length : ℚ) := by
        rw [← le_div_iff₀ hr0]
        exact hile
      have hir : (i : ℚ) * r ≤ ((input.length : ℤ) - 1 : ℤ) := by
        push_cast
        nlinarith
      have hfle : ⌊(i : ℚ) * r⌋ ≤ (input.length : ℤ) - 1 := by
        have h := Int.floor_le_floor hir
        rwa [Int.floor_intCast] at h
      have hif : (0 : ℤ) ≤ ⌊(i : ℚ) * r⌋ := by
        apply Int.floor_nonneg.mpr
        positivity
      omega
    refine ⟨?_, hbound⟩
    unfold resampleCapture
    rw [if_neg hne]
    rw [List.getD_eq_getElem _ _ (by simpa using hi)]
    rw [List.getElem_map, List.getElem_range]

/-- Concrete instance of `resample_C4`: identity at 16 kHz, and decimation of
an 8-sample block captured at 48 kHz (ratio 3) to the two samples at input
indices 0 and 3. -/
theorem resample_C4_witness :
    resampleCapture targetRate [1, 2, 3] = [1, 2, 3] ∧
    (resampleCapture 48000 [10, 11, 12, 13, 14, 15, 16, 17]).length = 2 ∧
    (resampleCapture 48000 [10, 11, 12, 13, 14, 15, 16, 17]).getD 1 0
        = ([10, 11, 12, 13, 14, 15, 16, 17] : List ℚ).getD
            (⌊((1 : ℚ)) * ((48000 : ℚ) / (16000 : ℚ))⌋).toNat 0 := by
  have h2 := resample_C4.2 48000 [10, 11, 12, 13, 14, 15, 16, 17]
    (by norm_num [targetRate]) (by norm_num [targetRate])
  have hlen : (resampleCapture 48000 [10, 11, 12, 13, 14, 15, 16, 17]).length
      = 2 := by
    rw [h2.1]
    norm_num [targetRate]
    rfl
  refine ⟨resample_C4.1 [1, 2, 3], hlen, ?_⟩
  exact (h2.2 1 (by rw [hlen]; norm_num)).1

/-- An inactive state is a fixed point of the tick. -/
theorem creditTick_inactive (s : CreditState) (h : s.timerActive = false) :
    creditTick s = s := by
  simp [creditTick, h]

/-- C5: every tick of the active timer decrements the credits by exactly 1
floored at 0; starting from 65 seconds, after 65 ticks the credits are 0, the
tick is cancelled, the credits-exhausted modal is raised, and the forced
finish has run exactly once — and stays at exactly once under any number of
further ticks. -/
theorem credit_timer_C5 :
    (∀ s : CreditState, s.timerActive = true → 0 ≤ s.remainingCredits →
      (creditTick s).remainingCredits = max (s.remainingCredits - 1) 0) ∧
    ((creditTick^[65] credits65).remainingCredits = 0 ∧
     (creditTick^[65] credits65).timerActive = false ∧
     (creditTick^[65] credits65).showCreditModal = true ∧
     (creditTick^[65] credits65).finishCount = 1) ∧
    (∀ k : Nat, (creditTick^[k] (creditTick^[65] credits65)).finishCount = 1) := by
  refine ⟨?_, by decide, ?_⟩
  · intro s hact hnn
    simp only [creditTick, hact, if_true]
    split
    · rename_i hle
      simp only
      omega
    · rename_i hgt
      simp only
      omega
  · intro k
    have hfix : creditTick (creditTick^[65] credits65) = creditTick^[65] credits65 := by
      decide
    rw [Function.iterate_fixed hfix]
    decide

/-- Concrete instance of `credit_timer_C5`: one tick from 65 credits. -/
theorem credit_timer_C5_witness :
    (creditTick credits65).remainingCredits = max (65 - 1) 0 :=
  credit_timer_C5.1 credits65 (by decide) (by decide)

/-- C8 counterexample: six seconds into an active session started fully
synced at 65 credits, the unpersisted drift is 6 — more than 5 seconds of
usage — and nothing has been pushed to storage. -/
theorem credit_sync_C8_counterexample :
    5 < |(syncSecond^[6] syncStart).lastSyncCredits
          - (syncSecond^[6] syncStart).remainingCredits| ∧
    (syncSecond^[6] syncStart).dbWrites = [] := by
  decide

/-- C8 amended: while the credit timer is actively decrementing, each second
restarts the reconciliation countdown and pushes nothing, so the
reconciliation never fires and the unpersisted drift keeps growing; when a
10-second period does elapse without a credit change, the drift test runs:
with drift at least 5 the current value is pushed and becomes the persisted
value (drift returns to 0), and with smaller drift nothing is pushed.  The
unpersisted drift is therefore not bounded by 5 seconds during active use. -/
theorem credit_sync_C8_amended :
    (∀ s : SyncState, s.countdownActive = true → 1 < s.remainingCredits →
      (syncSecond s).dbWrites = s.dbWrites ∧
      (syncSecond s).syncCountdown = 10 ∧
      (syncSecond s).remainingCredits = s.remainingCredits - 1 ∧
      (syncSecond s).lastSyncCredits = s.lastSyncCredits) ∧
    (∀ s : SyncState, ¬(s.countdownActive = true ∧ 1 < s.remainingCredits) →
      s.syncCountdown ≤ 1 → 5 ≤ |s.lastSyncCredits - s.remainingCredits| →
      (syncSecond s).dbWrites = s.dbWrites ++ [s.remainingCredits] ∧
      (syncSecond s).lastSyncCredits = (syncSecond s).remainingCredits) ∧
    (∀ s : SyncState, ¬(s.countdownActive = true ∧ 1 < s.remainingCredits) →
      s.syncCountdown ≤ 1 → |s.lastSyncCredits - s.remainingCredits| < 5 →
      (syncSecond s).dbWrites = s.dbWrites ∧
      (syncSecond s).lastSyncCredits = s.lastSyncCredits) := by
  refine ⟨?_, ?_, ?_⟩
  · intro s hact hcr
    simp [syncSecond, hact, hcr]
  · intro s hnact hcd hdrift
    simp [syncSecond, hnact, hcd, hdrift]
  · intro s hnact hcd hdrift
    simp [syncSecond, hnact, hcd, not_le.mpr hdrift]

/-- Concrete instances of `credit_sync_C8_amended`: an active second from the
start state, and an idle second that reconciles a drift of 6. -/
theorem credit_sync_C8_amended_witness :
    ((syncSecond syncStart).dbWrites = syncStart.dbWrites ∧
     (syncSecond syncStart).syncCountdown = 10 ∧
     (syncSecond syncStart).remainingCredits = syncStart.remainingCredits - 1 ∧
     (syncSecond syncStart).lastSyncCredits = syncStart.lastSyncCredits) ∧
    ((syncSecond driftedIdle).dbWrites = driftedIdle.dbWrites ++ [59] ∧
     (syncSecond driftedIdle).lastSyncCredits
        = (syncSecond driftedIdle).remainingCredits) :=
  ⟨credit_sync_C8_amended.1 syncStart (by decide) (by decide),
   credit_sync_C8_amended.2.1 driftedIdle (by decide) (by decide) (by decide)⟩

theorem length_dropWhile_le (p : Char → Bool) (l : List Char) :
    (l.dropWhile p).length ≤ l.length := by
  induction l with
  | nil => simp
  | cons a l ih =>
    rw [List.dropWhile_cons]
    split
    · exact le_trans ih (by simp)
    · simp

theorem trimChars_length_le (l : List Char) : (trimChars l).length ≤ l.length := by
  unfold trimChars
  calc ((l.dropWhile Char.isWhitespace).reverse.dropWhile Char.isWhitespace).reverse.length
      = ((l.dropWhile Char.isWhitespace).reverse.dropWhile Char.isWhitespace).length := by
        rw [List.length_reverse]
    _ ≤ (l.dropWhile Char.isWhitespace).reverse.length :=
        length_dropWhile_le _ _
    _ = (l.dropWhile Char.isWhitespace).length := by rw [List.length_reverse]
    _ ≤ l.length := length_dropWhile_le _ _

/-- C9: an empty transcript, or one shorter than 10 characters, always yields
the fixed low-score fallback (all four scores 10, fluency Beginner) without
invoking the evaluation collaborator. -/
theorem short_transcript_C9 (transcript : List Char) (outcome : CollabOutcome)
    (h : transcript = [] ∨ transcript.length < 10) :
    (evaluateSession transcript outcome).1.overallScore = 10 ∧
    (evaluateSession transcript outcome).1.vocabularyScore = 10 ∧
    (evaluateSession transcript outcome).1.grammarScore = 10 ∧
    (evaluateSession transcript outcome).1.pronunciationScore = 10 ∧
    (evaluateSession transcript outcome).1.fluencyRating = "Beginner" ∧
    (evaluateSession transcript outcome).2 = false := by
  have hshort : transcript = [] ∨ (trimChars transcript).length < 10 := by
    rcases h with h | h
    · exact Or.inl h
    · exact Or.inr (lt_of_le_of_lt (trimChars_length_le transcript) h)
  simp [evaluateSession, hshort, shortFallback]

/-- Concrete instance of `short_transcript_C9`: the two-character transcript
`Hi` with a collaborator that would have answered. -/
theorem short_transcript_C9_witness :
    (evaluateSession ['H', 'i']
        (.ok (some 90) (some 90) (some 90) (some 90) none none)).1.overallScore
      = 10 ∧
    (evaluateSession ['H', 'i']
        (.ok (some 90) (some 90) (some 90) (some 90) none none)).2 = false := by
  have h := short_transcript_C9 ['H', 'i']
    (.ok (some 90) (some 90) (some 90) (some 90) none none)
    (Or.inr (by decide))
  exact ⟨h.1, h.2.2.2.2.2⟩

/-- C10 counterexample: when the collaborator returns the nonzero but
inconsistent `overallScore = 50` alongside three component scores of 100,
`evaluateSession` keeps the 50 — the fallback `result.overallScore || ...`
recomputes only a falsy (zero or missing) value — even though the weighted
round of the components is 100. -/
theorem overall_recompute_C10_counterexample :
    (evaluateSession longTranscript
        (.ok (some 50) (some 100) (some 100) (some 100) none none)).1.overallScore
      = 50 ∧
    weightedOverall 100 100 100 = 100 ∧
    (50 : Int) ≠ 100 := by
  refine ⟨by decide, ?_, by decide⟩
  unfold weightedOverall
  norm_num

/-- C10 amended: `evaluateSession` recomputes the overall score as
`round(vocab*0.3 + grammar*0.3 + pronunciation*0.4)` exactly when the
collaborator's `overallScore` is zero or missing; any nonzero returned value
is kept unchanged, even when it is inconsistent with the component scores. -/
theorem overall_recompute_C10_amended :
    (∀ (t : List Char) (overall vocab grammar pron : Option Int)
        (fl fb : Option String),
      ¬(t = [] ∨ (trimChars t).length < 10) →
      jsOrZero overall = 0 →
      (evaluateSession t (.ok overall vocab grammar pron fl fb)).1.overallScore
        = weightedOverall (jsOrZero vocab) (jsOrZero grammar) (jsOrZero pron)) ∧
    (∀ (t : List Char) (overall vocab grammar pron : Option Int)
        (fl fb : Option String),
      ¬(t = [] ∨ (trimChars t).length < 10) →
      jsOrZero overall ≠ 0 →
      (evaluateSession t (.ok overall vocab grammar pron fl fb)).1.overallScore
        = jsOrZero overall) := by
  constructor
  · intro t overall vocab grammar pron fl fb hlong hzero
    simp [evaluateSession, hlong, hzero]
  · intro t overall vocab grammar pron fl fb hlong hnz
    simp [evaluateSession, hlong, hnz]

/-- Concrete instances of `overall_recompute_C10_amended`: a missing overall
score is recomputed from the components, and a nonzero overall score of 50 is
kept. -/
theorem overall_recompute_C10_amended_witness :
    (evaluateSession longTranscript
        (.ok none (some 80) (some 90) (some 70) none none)).1.overallScore
      = weightedOverall (jsOrZero (some 80)) (jsOrZero (some 90))
          (jsOrZero (some 70)) ∧
    (evaluateSession longTranscript
        (.ok (some 50) (some 100) (some 100) (some 100) none none)).1.overallScore
      = jsOrZero (some 50) :=
  ⟨overall_recompute_C10_amended.1 longTranscript none (some 80) (some 90)
      (some 70) none none (by decide) (by decide),
   overall_recompute_C10_amended.2 longTranscript (some 50) (some 100)
      (some 100) (some 100) none none (by decide) (by decide)⟩

end FluentAI
